import Mathlib

/-!
Shallow embedding of the tender-tracking dashboard (`src/frontend/app.py`):
the tender/draft data model, the SQLite-backed store operations, the
dashboard metrics, the filter pipeline of the Tenders tab, draft creation
and DOCX generation.  Calendar dates are modelled by their day numbers
(days since 1970-01-01, the standard order-preserving bijection from
proleptic-Gregorian civil dates), so Python `date` comparison becomes `≤`
on `ℤ` and `timedelta(days = n)` becomes `+ n`.
-/

set_option maxRecDepth 20000

namespace TFML

/-- Python `str.lower()` restricted to ASCII, which covers every string the
application manipulates. -/
def pyLower (s : String) : String := String.mk (s.toList.map Char.toLower)

/-- Characters removed by Python `str.strip()`. -/
def isPySpace (c : Char) : Bool :=
  c = ' ' || c = '\t' || c = '\n' || c = '\r' || c = '\x0b' || c = '\x0c'

/-- Python `str.strip()`: drop leading and trailing whitespace. -/
def pyStrip (s : String) : String :=
  String.mk (((s.toList.dropWhile isPySpace).reverse.dropWhile isPySpace).reverse)

/-- Does the first list occur as a prefix of the second? -/
def startsWithL : List Char → List Char → Bool
  | [], _ => true
  | _ :: _, [] => false
  | a :: as, b :: bs => a == b && startsWithL as bs

/-- Does `needle` occur as a contiguous sublist of the second argument? -/
def occursIn (needle : List Char) : List Char → Bool
  | [] => startsWithL needle []
  | c :: rest => startsWithL needle (c :: rest) || occursIn needle rest

/-- Python substring containment `needle in hay`. -/
def containsSub (needle hay : String) : Bool := occursIn needle.toList hay.toList

/-- Split a character list at every occurrence of `sep` (Python
`str.split(sep)` for a single-character separator). -/
def splitOnChar (sep : Char) : List Char → List (List Char)
  | [] => [[]]
  | c :: rest =>
    if c = sep then [] :: splitOnChar sep rest
    else
      match splitOnChar sep rest with
      | [] => [[c]]
      | h :: t => (c :: h) :: t

def digitVal (c : Char) : ℕ := c.toNat - '0'.toNat

def allDigits (cs : List Char) : Bool := cs.all Char.isDigit

def digitsToNat (cs : List Char) : ℕ := cs.foldl (fun a c => a * 10 + digitVal c) 0

/-- Gregorian leap year, as in Python's `datetime`. -/
def isLeap (y : ℤ) : Bool := y % 4 == 0 && (y % 100 != 0 || y % 400 == 0)

/-- Number of days in month `m` of year `y`. -/
def daysInMonth (y : ℤ) (m : ℕ) : ℕ :=
  if m = 2 then (if isLeap y then 29 else 28)
  else if m = 4 ∨ m = 6 ∨ m = 9 ∨ m = 11 then 30
  else 31

/-- Day number (days since 1970-01-01) of the civil date `y-m-d`; the
standard `days_from_civil` algorithm.  It is an order-preserving bijection
from valid civil dates, so `date` comparison and `timedelta` arithmetic in
the source become integer comparison and addition here. -/
def daysFromCivil (y : ℤ) (m d : ℕ) : ℤ :=
  let y' : ℤ := if m ≤ 2 then y - 1 else y
  let era : ℤ := Int.fdiv y' 400
  let yoe : ℤ := y' - era * 400
  let mp : ℤ := if 2 < m then (m : ℤ) - 3 else (m : ℤ) + 9
  let doy : ℤ := Int.fdiv (153 * mp + 2) 5 + (d : ℤ) - 1
  let doe : ℤ := yoe * 365 + Int.fdiv yoe 4 - Int.fdiv yoe 100 + doy
  era * 146097 + doe - 719468

/-- `datetime.strptime(s, "%Y-%m-%d").date()`: exactly three dash-separated
all-digit fields, a 4-digit year, 1–2 digit month and day, and the values
must form a valid calendar date (CPython's `_strptime` regular expressions
plus the `date` constructor's range checks). -/
def parseDate (s : String) : Option (ℤ × ℕ × ℕ) :=
  match splitOnChar '-' s.toList with
  | [ys, ms, ds] =>
    if allDigits ys ∧ allDigits ms ∧ allDigits ds ∧ ys.length = 4 ∧
        (ms.length = 1 ∨ ms.length = 2) ∧ (ds.length = 1 ∨ ds.length = 2) then
      let y : ℤ := (digitsToNat ys : ℤ)
      let m : ℕ := digitsToNat ms
      let d : ℕ := digitsToNat ds
      if 1 ≤ y ∧ 1 ≤ m ∧ m ≤ 12 ∧ 1 ≤ d ∧ d ≤ daysInMonth y m then
        some (y, m, d)
      else none
    else none
  | _ => none

/-- `_safe_date` (app.py:241-245): parse a strict `YYYY-MM-DD` string to a
date, returning `None` on any failure (including a missing value).  The
resulting date is represented by its day number. -/
def safe_date : Option String → Option ℤ
  | none => none
  | some s => (parseDate s).map (fun p => daysFromCivil p.1 p.2.1 p.2.2)

/-- A draft response record, as created by `new_draft_response_for_tender`
and the seeding code (app.py:308-324, 427-445).  The application always
creates drafts with every field present, so the fields are total here and
the `dict.get` defaults of the source never fire.  The source's `to` field
is spelled `to_` because `to` is reserved in Lean. -/
structure Draft where
  id : String
  type : String
  version : ℕ
  status : String
  to_ : String
  cc : String
  subject : String
  value : String
  body : String
  attachments : List String
  file : String
  last_updated : String
deriving DecidableEq, Repr

/-- One row of the `tenders` table (app.py:162-175, 184-189), with the
`drafts` column already decoded from its JSON form.  `deadline` is the
stored string (`none` models a missing value); `score` is the REAL column
modelled as a rational. -/
structure Tender where
  id : ℤ
  title : String
  org : String
  sector : String
  deadline : Option String
  description : String
  status : String
  score : ℚ
  assignee : String
  drafts : List Draft
deriving DecidableEq, Repr

/-! ### Tender Store (app.py:179-221)

The SQLite table is modelled as the list of its rows; `id` is the primary
key.  JSON serialization of the drafts column is lossless on the record
shapes the application writes, so it is modelled as the identity on the
structured draft list. -/

/-- `load_rows` (app.py:179-194): return every stored tender. -/
def load_rows (db : List Tender) : List Tender := db

/-- `save_row` (app.py:196-211): `INSERT OR REPLACE` keyed on the primary
key `id` — replace the row with the same id if one exists, else insert. -/
def save_row (tender : Tender) (db : List Tender) : List Tender :=
  if db.any (fun r => r.id == tender.id) then
    db.map (fun r => if r.id == tender.id then tender else r)
  else db ++ [tender]

/-- `delete_row` (app.py:213-221): `DELETE FROM tenders WHERE id = ?`. -/
def delete_row (tender_id : ℤ) (db : List Tender) : List Tender :=
  db.filter (fun r => r.id != tender_id)

/-! ### Dashboard metrics (app.py:370-418) -/

/-- The statuses treated as terminal by the overdue bucket and as "decided"
by the win rate (app.py:377, 383). -/
def terminalStatuses : List String := ["Awarded", "Won", "Lost"]

/-- The `overdue` bucket (app.py:377): tenders with a parseable deadline
strictly before `today` whose status is not terminal. -/
def compute_overdue (today : ℤ) (rows : List Tender) : List Tender :=
  rows.filter (fun r =>
    match safe_date r.deadline with
    | some d => decide (d < today) && !(terminalStatuses.contains r.status)
    | none => false)

/-- The `due3`/`due7` buckets (app.py:378-379), generalized over the window
`n`: tenders with `today ≤ deadline ≤ today + n`, regardless of status. -/
def dueN (today : ℤ) (n : ℤ) (rows : List Tender) : List Tender :=
  rows.filter (fun r =>
    match safe_date r.deadline with
    | some d => decide (today ≤ d) && decide (d ≤ today + n)
    | none => false)

/-- `total` (app.py:375): every row counts, parseable deadline or not. -/
def compute_total (rows : List Tender) : ℕ := rows.length

/-- `awarded` (app.py:382): tenders counted as wins by the win rate. -/
def winsOf (rows : List Tender) : List Tender :=
  rows.filter (fun r => ["Awarded", "Won"].contains r.status)

/-- `decided` (app.py:383): tenders with a decided (terminal) status. -/
def decidedOf (rows : List Tender) : List Tender :=
  rows.filter (fun r => terminalStatuses.contains r.status)

/-- Round a rational to the nearest integer, ties to even — the rounding
Python's built-in `round` applies. -/
def roundHalfEven (q : ℚ) : ℤ :=
  if Int.fract q < 1 / 2 then ⌊q⌋
  else if 1 / 2 < Int.fract q then ⌊q⌋ + 1
  else if ⌊q⌋ % 2 = 0 then ⌊q⌋ else ⌊q⌋ + 1

/-- Python `round(x, 1)`: round to one decimal place. -/
def round1 (q : ℚ) : ℚ := (roundHalfEven (q * 10) : ℚ) / 10

/-- `win_rate` (app.py:384):
`round(len(awarded) / len(decided) * 100.0, 1) if decided else 0.0`,
with the float arithmetic modelled exactly over the rationals. -/
def win_rate (rows : List Tender) : ℚ :=
  if decidedOf rows = [] then 0
  else round1 (((winsOf rows).length : ℚ) / ((decidedOf rows).length : ℚ) * 100)

/-! ### Filter pipeline of the Tenders tab (app.py:585-598) -/

/-- `process_nl` (app.py:585-590): the canned natural-language shortcuts.
An empty query is a no-op; otherwise the lowercased, stripped query is
checked for the substring `"overdue"` first and `"due this week"` second,
and the matching branch filters the rows by its own date predicate. -/
def process_nl (today : ℤ) (q : String) (rs : List Tender) : List Tender :=
  if q = "" then rs
  else
    let ql := pyStrip (pyLower q)
    if containsSub "overdue" ql then
      rs.filter (fun r =>
        match safe_date r.deadline with
        | some d => decide (d < today)
        | none => false)
    else if containsSub "due this week" ql then
      rs.filter (fun r =>
        match safe_date r.deadline with
        | some d => decide (d ≤ today + 7)
        | none => false)
    else rs

/-- The `in_range` conjunct of `_match` (app.py:596): a row with no
parseable deadline passes the explicit date range unconditionally. -/
def inRangeB (start_date end_date : ℤ) (r : Tender) : Bool :=
  match safe_date r.deadline with
  | none => true
  | some d => decide (start_date ≤ d) && decide (d ≤ end_date)

/-- `_match` (app.py:593-597): case-insensitive substring search over
title and buyer, status and sector membership, and the inclusive deadline
range. -/
def matchRow (search : String) (status_filter sector_filter : List String)
    (start_date end_date : ℤ) (r : Tender) : Bool :=
  let t := pyLower (r.title ++ " " ++ r.org)
  containsSub (pyLower search) t && status_filter.contains r.status &&
    sector_filter.contains r.sector && inRangeB start_date end_date r

/-- The full filter pipeline (app.py:591, 598): the shortcut pass runs
first, then every surviving row must additionally pass `_match`. -/
def applyFilters (today : ℤ) (nl_query search : String)
    (status_filter sector_filter : List String) (start_date end_date : ℤ)
    (rows : List Tender) : List Tender :=
  (process_nl today nl_query rows).filter
    (matchRow search status_filter sector_filter start_date end_date)

/-! ### Draft helpers and document generation (app.py:228-272, 423-448) -/

/-- `_suggest_email` (app.py:247-255): pick a recipient from substrings of
the lowercased buyer name. -/
def suggest_email (org : String) : String :=
  let o := pyLower org
  if containsSub "mtn" o then "procurement@mtn.com"
  else if containsSub "fcta" o then "procurement@fcta.gov.ng"
  else if containsSub "faan" o then "procurement@faan.gov.ng"
  else if containsSub "ifma" o then "secretariat@ifma.org.ng"
  else if containsSub "aatc" o || containsSub "afrex" o then "procurement@afreximbank.com"
  else if containsSub "nibss" o then "tenders@nibss-plc.com"
  else "procurement@buyer.ng"

/-- `EOI_TMPL.format(...)` (app.py:228-239): the expression-of-interest
template with `recipient`, `title`, `sector_desc` and `summary`
substituted. -/
def EOI_TMPL (recipient title sector_desc summary : String) : String :=
  "Dear " ++ recipient ++
  ",\n\nTotal Facilities Management Limited (TFML) is pleased to express interest in the opportunity titled \"" ++
  title ++ "\". With a strong track record delivering " ++ sector_desc ++
  ", our team is positioned to meet your outcomes on quality, compliance and timelines.\n\nScope alignment (summary):\n" ++
  summary ++
  "\n\nTFML offers certified personnel, SLAs, HSE compliance and proven delivery for public and private estates nationwide. We welcome the opportunity to submit full technical and financial proposals upon request.\n\nSincerely,\nTFML Bid Office\n"

/-- `new_draft_response_for_tender` (app.py:423-448): the next version is
`max(existing versions) + 1`, or `1` when the tender has no drafts; the
draft id is `"<tenderId>:<version>"`.  The wall clock feeding
`last_updated` is passed in as `now`; the function returns the tender with
the draft appended (the caller persists it with `save_row`) together with
the new draft. -/
def new_draft_response_for_tender (now : String) (tender : Tender)
    (kind : String) : Tender × Draft :=
  let next_version : ℕ :=
    match tender.drafts with
    | [] => 1
    | ds => (ds.map Draft.version).foldl Nat.max 0 + 1
  let draft : Draft :=
    { id := toString tender.id ++ ":" ++ toString next_version
      type := kind
      version := next_version
      status := "Draft"
      to_ := suggest_email tender.org
      cc := "bids@tfml.ng"
      subject := (if kind ≠ "EOI" then "Proposal" else "Expression of Interest") ++
        " — " ++ tender.title
      value := ""
      body := EOI_TMPL "Procurement Team" tender.title (pyLower tender.sector)
        tender.description
      attachments := []
      file := ""
      last_updated := now }
  ({ tender with drafts := tender.drafts ++ [draft] }, draft)

/-- The generated word-processing document: the level-1 heading followed by
the paragraphs, in order. -/
structure DocxFile where
  heading : String
  paragraphs : List String
deriving DecidableEq, Repr

/-- `write_docx_from_draft` (app.py:257-272): heading is the draft's
subject, then the To/CC/value metadata lines, a spacer, and the body split
on newlines; returns the document and the path it was saved under. -/
def write_docx_from_draft (draft : Draft) (filename_hint : String) :
    DocxFile × String :=
  let safe_fn : String :=
    String.mk ((filename_hint.toList.take 60).map (fun c => if c = ' ' then '_' else c))
  let path : String := "eois/" ++ safe_fn ++ ".docx"
  let body : String := if draft.body = "" then "—" else draft.body
  ({ heading := draft.subject
     paragraphs :=
       ["To: " ++ draft.to_, "CC: " ++ draft.cc,
        "Contract Value (₦): " ++ draft.value, ""] ++
       (splitOnChar '\n' body.toList).map String.mk },
   path)

/-- `write_docx_from_draft` seen through a fallible file system:
`doc.save(path)` either succeeds or raises (`write_fails`). -/
def write_docx_fs (write_fails : Bool) (draft : Draft) (filename_hint : String) :
    Except String (DocxFile × String) :=
  if write_fails then Except.error "disk write failure"
  else Except.ok (write_docx_from_draft draft filename_hint)

/-- Outcome of the Download DOCX handler: the in-memory tender, the store
contents, and the exception escaping the handler, if any. -/
structure DownloadResult where
  tender : Tender
  db : List Tender
  raised : Option String
deriving DecidableEq, Repr

/-- The Download DOCX handler (app.py:836-843): generate the document for
draft `i` of tender `t`, then set the draft's `file` to the returned path,
refresh `last_updated` and persist with `save_row`.  The source wraps none
of this in try/except, so a failing write raises out of the handler before
any of the mutations run. -/
def download_docx_handler (write_fails : Bool) (now : String)
    (db : List Tender) (t : Tender) (i : ℕ) : DownloadResult :=
  match t.drafts[i]? with
  | none => ⟨t, db, some "no draft selected"⟩
  | some d =>
    match write_docx_fs write_fails d (t.title ++ "_v" ++ toString d.version) with
    | Except.error e => ⟨t, db, some e⟩
    | Except.ok (_, file_path) =>
      let d' : Draft := { d with file := file_path, last_updated := now }
      let t' : Tender := { t with drafts := t.drafts.set i d' }
      ⟨t', save_row t' db, none⟩

/-! ### Concrete fixtures for the scenario claims -/

/-- Day number of 2025-08-10, the `today` of the spec scenarios. -/
def d20250810 : ℤ := daysFromCivil 2025 8 10

/-- Scenario tender A: overdue (deadline 2025-08-09, status Pending),
sector Energy. -/
def tenderA : Tender :=
  { id := 1, title := "Wuse District Streetlighting Retrofit", org := "FCTA"
    sector := "Energy", deadline := some "2025-08-09"
    description := "LED retrofit + solar hybridization", status := "Pending"
    score := 0, assignee := "femi@tfml.ng", drafts := [] }

/-- Scenario tender B: future (deadline 2025-08-12, status Draft), sector
Construction. -/
def tenderB : Tender :=
  { id := 2, title := "AATC HQ Janitorial & Waste Management"
    org := "Afreximbank AATC", sector := "Construction"
    deadline := some "2025-08-12", description := "Janitorial and waste services"
    status := "Draft", score := 0, assignee := "enoch@tfml.ng", drafts := [] }

/-- A tender with deadline 2025-08-11 (one day out), used for the
"due this week" precedence counterexample. -/
def tenderC : Tender :=
  { id := 3, title := "Airport Concourse Cleaning", org := "FAAN"
    sector := "Facilities Management", deadline := some "2025-08-11"
    description := "Terminal cleaning", status := "Pending", score := 0
    assignee := "bids@tfml.ng", drafts := [] }

/-- A tender whose deadline string does not parse. -/
def tenderN : Tender :=
  { id := 4, title := "MTN Regional Hub M&E Maintenance", org := "MTN Nigeria"
    sector := "Construction", deadline := some "not-a-date"
    description := "HVAC, power, fire, gen maintenance", status := "Draft"
    score := 0, assignee := "greg@tfml.ng", drafts := [] }

/-- A tender with no drafts yet, the start of the versioning scenario. -/
def tender0 : Tender :=
  { id := 7, title := "Data Centre Critical Environment FM", org := "NIBSS"
    sector := "Facilities Management", deadline := some "2025-08-20"
    description := "Tier-III critical environment FM", status := "Draft"
    score := 0, assignee := "ops@tfml.ng", drafts := [] }

/-- First, second and third draft-creation steps on `tender0`. -/
def step1 : Tender × Draft := new_draft_response_for_tender "t1" tender0 "EOI"

def step2 : Tender × Draft := new_draft_response_for_tender "t2" step1.1 "EOI"

def step3 : Tender × Draft := new_draft_response_for_tender "t3" step2.1 "EOI"

/-! ### Helper lemmas -/

/-- The filtering predicate of the `overdue` bucket, characterized. -/
theorem overdue_pred_iff (today : ℤ) (r : Tender) :
    ((match safe_date r.deadline with
      | some d => decide (d < today) && !(terminalStatuses.contains r.status)
      | none => false) = true) ↔
    ∃ d, safe_date r.deadline = some d ∧ d < today ∧
      r.status ∉ terminalStatuses := by
  cases h : safe_date r.deadline with
  | none => simp [h]
  | some d => simp [h]

/-- The filtering predicate of the `dueN` buckets, characterized. -/
theorem dueN_pred_iff (today n : ℤ) (r : Tender) :
    ((match safe_date r.deadline with
      | some d => decide (today ≤ d) && decide (d ≤ today + n)
      | none => false) = true) ↔
    ∃ d, safe_date r.deadline = some d ∧ today ≤ d ∧ d ≤ today + n := by
  cases h : safe_date r.deadline with
  | none => simp [h]
  | some d => simp [h]

/-- The filtering predicate of the "overdue" shortcut (which, unlike the
dashboard's overdue bucket, does not look at the status), characterized. -/
theorem overdue_shortcut_pred_iff (today : ℤ) (r : Tender) :
    ((match safe_date r.deadline with
      | some d => decide (d < today)
      | none => false) = true) ↔
    ∃ d, safe_date r.deadline = some d ∧ d < today := by
  cases h : safe_date r.deadline with
  | none => simp [h]
  | some d => simp [h]

/-- The filtering predicate of the "due this week" shortcut, characterized. -/
theorem due_week_pred_iff (today : ℤ) (r : Tender) :
    ((match safe_date r.deadline with
      | some d => decide (d ≤ today + 7)
      | none => false) = true) ↔
    ∃ d, safe_date r.deadline = some d ∧ d ≤ today + 7 := by
  cases h : safe_date r.deadline with
  | none => simp [h]
  | some d => simp [h]

/-- The seed of a `foldl Nat.max` is a lower bound of the result. -/
theorem seed_le_foldl_max (l : List ℕ) (a : ℕ) : a ≤ l.foldl Nat.max a := by
  induction l generalizing a with
  | nil => exact le_refl a
  | cons h t ih => exact le_trans (Nat.le_max_left a h) (ih (Nat.max a h))

/-- Every member of a list bounds `foldl Nat.max` from below. -/
theorem mem_le_foldl_max (l : List ℕ) (a x : ℕ) (hx : x ∈ l) :
    x ≤ l.foldl Nat.max a := by
  induction l generalizing a with
  | nil => cases hx
  | cons h t ih =>
    rcases List.mem_cons.mp hx with rfl | hx'
    · exact le_trans (Nat.le_max_right a x) (seed_le_foldl_max t (Nat.max a x))
    · exact ih (Nat.max a h) hx'

/-- The version assigned by draft creation, spelled out. -/
theorem new_draft_version_eq (now : String) (t : Tender) (kind : String) :
    ((new_draft_response_for_tender now t kind).2).version
      = match t.drafts with
        | [] => 1
        | ds => (ds.map Draft.version).foldl Nat.max 0 + 1 := rfl

/-! ### Claims -/

/-- C2: for every snapshot, `winRate` is
`100 * count(status in (Awarded, Won)) / count(status in (Awarded, Won, Lost))`
rounded to one decimal when some tender has a decided status, and exactly
`0` when no tender does. -/
theorem winRate_spec (rows : List Tender) :
    win_rate rows =
      if rows.countP (fun r => terminalStatuses.contains r.status) = 0 then 0
      else round1 (100 * (rows.countP (fun r => ["Awarded", "Won"].contains r.status) : ℚ) /
        (rows.countP (fun r => terminalStatuses.contains r.status) : ℚ)) := by
  have hw : rows.countP (fun r => ["Awarded", "Won"].contains r.status)
      = (winsOf rows).length := by
    simp [winsOf, List.countP_eq_length_filter]
  have hd : rows.countP (fun r => terminalStatuses.contains r.status)
      = (decidedOf rows).length := by
    simp [decidedOf, List.countP_eq_length_filter]
  rw [win_rate, hw, hd]
  by_cases h : decidedOf rows = []
  · simp [h]
  · rw [if_neg h, if_neg (by simpa [List.length_eq_zero] using h)]
    congr 1
    ring

/-- C3: the `overdue` bucket holds exactly the tenders with a parseable
deadline strictly before today and a non-terminal status, and `dueInN(n)`
holds exactly the tenders with `today ≤ deadline ≤ today + n` regardless
of status; concretely, with today = 2025-08-10, tender A (deadline
2025-08-09, Pending) is overdue, and tender B (deadline 2025-08-12, Draft)
is in `dueInN(3)` and `dueInN(7)` but not overdue. -/
theorem overdue_dueN_spec :
    (∀ (today n : ℤ) (rows : List Tender) (r : Tender),
      (r ∈ compute_overdue today rows ↔
        r ∈ rows ∧ ∃ d, safe_date r.deadline = some d ∧ d < today ∧
          r.status ∉ terminalStatuses) ∧
      (r ∈ dueN today n rows ↔
        r ∈ rows ∧ ∃ d, safe_date r.deadline = some d ∧ today ≤ d ∧
          d ≤ today + n)) ∧
    (tenderA ∈ compute_overdue d20250810 [tenderA, tenderB] ∧
      tenderB ∈ dueN d20250810 3 [tenderA, tenderB] ∧
      tenderB ∈ dueN d20250810 7 [tenderA, tenderB] ∧
      tenderB ∉ compute_overdue d20250810 [tenderA, tenderB]) := by
  constructor
  · intro today n rows r
    constructor
    · rw [compute_overdue, List.mem_filter, overdue_pred_iff]
    · rw [dueN, List.mem_filter, dueN_pred_iff]
  · exact ⟨by decide, by decide, by decide, by decide⟩

/-- C4: after `save(t)`, `loadAll()` contains a tender equal to `t` in all
fields (id, title, org, sector, deadline, description, status, score,
assignee), including its nested drafts and their versions — equality of
the `Tender` structure is field-wise, drafts included. -/
theorem save_loadAll_roundtrip (t : Tender) (db : List Tender) :
    t ∈ load_rows (save_row t db) := by
  rw [load_rows, save_row]
  split
  · rename_i h
    rcases List.any_eq_true.mp h with ⟨r, hr, hid⟩
    have hmem := List.mem_map_of_mem (fun r => if r.id == t.id then t else r) hr
    simpa [hid] using hmem
  · simp

/-- C5: starting from a tender with no drafts, three draft creations yield
versions 1, 2, 3 and unique ids `"<tenderId>:1"`, `"<tenderId>:2"`,
`"<tenderId>:3"`; in general the new draft is appended, its version is 1
when no drafts exist and exceeds every existing version (it is
`max(existing versions) + 1`). -/
theorem draft_versioning_spec :
    (∀ (now : String) (t : Tender) (kind : String),
      ((new_draft_response_for_tender now t kind).1).drafts
        = t.drafts ++ [(new_draft_response_for_tender now t kind).2] ∧
      (t.drafts = [] → ((new_draft_response_for_tender now t kind).2).version = 1) ∧
      (∀ d ∈ t.drafts,
        d.version < ((new_draft_response_for_tender now t kind).2).version)) ∧
    (step1.2.version = 1 ∧ step2.2.version = 2 ∧ step3.2.version = 3 ∧
      step1.2.id = "7:1" ∧ step2.2.id = "7:2" ∧ step3.2.id = "7:3" ∧
      step1.2.id ≠ step2.2.id ∧ step1.2.id ≠ step3.2.id ∧
      step2.2.id ≠ step3.2.id ∧
      step3.1.drafts.map Draft.version = [1, 2, 3]) := by
  constructor
  · intro now t kind
    refine ⟨rfl, ?_, ?_⟩
    · intro h
      rw [new_draft_version_eq, h]
    · intro d hd
      rw [new_draft_version_eq]
      cases hds : t.drafts with
      | nil => rw [hds] at hd; cases hd
      | cons x xs =>
        rw [hds] at hd
        have : d.version ∈ (x :: xs).map Draft.version :=
          List.mem_map_of_mem Draft.version hd
        exact Nat.lt_succ_of_le (mem_le_foldl_max _ 0 d.version this)
  · refine ⟨by decide, by decide, by decide, by decide, by decide, by decide,
      by decide, by decide, by decide, by decide⟩

/-- C5 witness: the general bounds applied to the concrete chain — the
first draft of the empty tender has version 1, and the existing version 1
is below the version assigned by the second creation. -/
theorem draft_versioning_witness :
    step1.2 ∈ step1.1.drafts ∧
    step1.2.version < ((new_draft_response_for_tender "t2" step1.1 "EOI").2).version ∧
    ((new_draft_response_for_tender "t1" tender0 "EOI").2).version = 1 :=
  ⟨by decide,
   (draft_versioning_spec.1 "t2" step1.1 "EOI").2.2 step1.2 (by decide),
   (draft_versioning_spec.1 "t1" tender0 "EOI").2.1 rfl⟩

/-- C6: `delete(id)` is idempotent — deleting twice equals deleting once —
and deleting an id that is not present leaves the store unchanged (a
non-error no-op; the model is total, mirroring SQLite's DELETE matching
zero rows). -/
theorem delete_idempotent_spec (db : List Tender) (tid : ℤ) :
    delete_row tid (delete_row tid db) = delete_row tid db ∧
    ((∀ r ∈ db, r.id ≠ tid) → delete_row tid db = db) := by
  constructor
  · simp [delete_row, List.filter_filter]
  · intro h
    rw [delete_row]
    apply List.filter_eq_self.mpr
    intro r hr
    simpa using h r hr

/-- C6 witness: the idempotence and no-op facts at a concrete store. -/
theorem delete_idempotent_witness :
    delete_row 99 (delete_row 99 [tender0]) = delete_row 99 [tender0] ∧
    delete_row 99 [tender0] = [tender0] :=
  ⟨(delete_idempotent_spec [tender0] 99).1,
   (delete_idempotent_spec [tender0] 99).2 (by decide)⟩

/-- C7: a tender whose deadline does not parse (e.g. `"not-a-date"`, which
indeed fails to parse, or a missing value) is excluded from the `overdue`
and `dueInN` buckets, still counts towards `total` (which counts every
row), and passes the explicit date-range filter unconditionally. -/
theorem unparseable_deadline_spec (today n start_date end_date : ℤ)
    (rows : List Tender) (r : Tender)
    (h : safe_date r.deadline = none) :
    r ∉ compute_overdue today rows ∧
    r ∉ dueN today n rows ∧
    inRangeB start_date end_date r = true ∧
    compute_total rows = rows.length ∧
    safe_date (some "not-a-date") = none := by
  refine ⟨?_, ?_, ?_, rfl, by decide⟩
  · simp only [compute_overdue, List.mem_filter]
    rintro ⟨-, h2⟩
    rw [overdue_pred_iff] at h2
    obtain ⟨d, hd, -⟩ := h2
    rw [h] at hd
    cases hd
  · simp only [dueN, List.mem_filter]
    rintro ⟨-, h2⟩
    rw [dueN_pred_iff] at h2
    obtain ⟨d, hd, -⟩ := h2
    rw [h] at hd
    cases hd
  · simp [inRangeB, h]

/-- C1 counterexample: with the free-text query `"overdue"`, a snapshot of
one overdue tender (A, sector Energy) and one future tender (B), and an
explicit sector filter that excludes A, the pipeline returns the empty
list — not only-A as the claim states — even though the shortcut pass
alone did select exactly A. -/
theorem shortcut_sector_cex :
    applyFilters d20250810 "overdue" "" ["Draft", "Submitted", "Pending"]
        ["Construction"] (d20250810 - 14) (d20250810 + 60)
        [tenderA, tenderB] = [] ∧
    process_nl d20250810 "overdue" [tenderA, tenderB] = [tenderA] ∧
    tenderA ∈ compute_overdue d20250810 [tenderA, tenderB] :=
  ⟨by decide, by decide, by decide⟩

/-- C1 (amended): a matched shortcut applies its date predicate as a first
pass, but every explicit filter — status, sector and the explicit date
range — is still applied afterwards (logical AND); the shortcut does not
short-circuit them, so a sector filter excluding the overdue tender
removes it from the result. -/
theorem shortcut_filters_compose (today : ℤ) (nl_query search : String)
    (status_filter sector_filter : List String) (start_date end_date : ℤ)
    (rows : List Tender) (r : Tender)
    (h : r ∈ applyFilters today nl_query search status_filter sector_filter
      start_date end_date rows) :
    r ∈ process_nl today nl_query rows ∧
    status_filter.contains r.status = true ∧
    sector_filter.contains r.sector = true ∧
    inRangeB start_date end_date r = true := by
  rw [applyFilters] at h
  obtain ⟨h1, h2⟩ := List.mem_filter.mp h
  rw [matchRow] at h2
  simp only [Bool.and_eq_true] at h2
  exact ⟨h1, h2.1.1.2, h2.1.2, h2.2⟩

/-- C1 witness: the composition facts at a concrete filtered snapshot in
which tender A does pass every filter. -/
theorem shortcut_filters_compose_witness :
    tenderA ∈ process_nl d20250810 "overdue" [tenderA, tenderB] ∧
    (["Pending"].contains tenderA.status) = true ∧
    (["Energy"].contains tenderA.sector) = true ∧
    inRangeB (d20250810 - 14) (d20250810 + 60) tenderA = true :=
  shortcut_filters_compose d20250810 "overdue" "" ["Pending"] ["Energy"]
    (d20250810 - 14) (d20250810 + 60) [tenderA, tenderB] tenderA (by decide)

/-- C8 counterexample: a failing document write is not recovered inside
the Download DOCX handler — the exception escapes (`raised` is not `none`)
instead of being caught and surfaced as a notice there.  The
state-preservation half of the claim does hold: the tender and the store
are unchanged. -/
theorem download_docx_failure_cex :
    (download_docx_handler true "2025-08-10T12:00:00" [step1.1] step1.1 0).raised
        = some "disk write failure" ∧
    (download_docx_handler true "2025-08-10T12:00:00" [step1.1] step1.1 0).tender
        = step1.1 ∧
    (download_docx_handler true "2025-08-10T12:00:00" [step1.1] step1.1 0).db
        = [step1.1] :=
  ⟨by decide, by decide, by decide⟩

/-- C8 (amended): when generating the document fails, the exception
propagates out of the Download DOCX handler uncaught (there is no
try/except at the call site); no partial file path is referenced — the
in-memory tender, hence the draft's `file` field, and the stored tenders
are exactly as before. -/
theorem download_docx_failure_amended (now : String) (db : List Tender)
    (t : Tender) (i : ℕ) (h : i < t.drafts.length) :
    download_docx_handler true now db t i = ⟨t, db, some "disk write failure"⟩ := by
  rw [download_docx_handler, List.getElem?_eq_getElem h]
  rfl

/-- C8 witness: the failure propagation at a concrete tender with one
draft. -/
theorem download_docx_failure_amended_witness :
    download_docx_handler true "2025-08-10T12:00:00" [step1.1] step1.1 0
      = ⟨step1.1, [step1.1], some "disk write failure"⟩ :=
  download_docx_failure_amended "2025-08-10T12:00:00" [step1.1] step1.1 0
    (by decide)

/-- C9 counterexample: the heading of the generated document for the
app-created EOI draft of version 1 is the draft's subject
("Expression of Interest — <title>"), which is neither
`"EOI Draft (v1)"` nor `"EOI Draft"`. -/
theorem docx_heading_cex :
    (write_docx_from_draft step1.2 "Data Centre Critical Environment FM_v1").1.heading
        = "Expression of Interest — Data Centre Critical Environment FM" ∧
    step1.2.type = "EOI" ∧ step1.2.version = 1 ∧
    (write_docx_from_draft step1.2 "Data Centre Critical Environment FM_v1").1.heading
        ≠ "EOI Draft (v1)" ∧
    (write_docx_from_draft step1.2 "Data Centre Critical Environment FM_v1").1.heading
        ≠ "EOI Draft" :=
  ⟨by decide, by decide, by decide, by decide, by decide⟩

/-- C9 (amended): the generated document's heading is the draft's subject
line; for drafts the application creates, that subject is
"Expression of Interest — <title>" for kind EOI and "Proposal — <title>"
otherwise — never "<DocKind> Draft (v<version>)". -/
theorem docx_heading_amended (draft : Draft) (filename_hint : String) :
    (write_docx_from_draft draft filename_hint).1.heading = draft.subject ∧
    (∀ (now : String) (t : Tender) (kind : String),
      (write_docx_from_draft (new_draft_response_for_tender now t kind).2
          filename_hint).1.heading
        = (if kind ≠ "EOI" then "Proposal" else "Expression of Interest") ++
          " — " ++ t.title) :=
  ⟨rfl, fun _ _ _ => rfl⟩

/-- C10 counterexample: the claim quantifies over every query containing
"due this week", but a query that also contains "overdue" takes the
overdue branch: tender C's deadline is tomorrow (well within today + 7),
yet the query "overdue and due this week" filters it out. -/
theorem due_this_week_precedence_cex :
    containsSub "due this week" (pyStrip (pyLower "overdue and due this week"))
        = true ∧
    safe_date tenderC.deadline = some (d20250810 + 1) ∧
    d20250810 + 1 ≤ d20250810 + 7 ∧
    process_nl d20250810 "overdue and due this week" [tenderC] = [] :=
  ⟨by decide, by decide, by decide, by decide⟩

/-- C10 (amended): for a non-empty query containing "due this week" but
not "overdue" (the overdue branch is checked first), the shortcut keeps
exactly the tenders with a parseable deadline at most today + 7 — with no
lower bound, so overdue tenders are kept; both shortcut branches drop
tenders with a missing or unparseable deadline, which the explicit
date-range filter always passes. -/
theorem due_this_week_amended (today start_date end_date : ℤ) (q q2 : String)
    (rows : List Tender) (r : Tender)
    (hne : q ≠ "")
    (hov : containsSub "overdue" (pyStrip (pyLower q)) = false)
    (hdw : containsSub "due this week" (pyStrip (pyLower q)) = true)
    (hne2 : q2 ≠ "")
    (hov2 : containsSub "overdue" (pyStrip (pyLower q2)) = true)
    (hnone : safe_date r.deadline = none) :
    (∀ r2, r2 ∈ process_nl today q rows ↔
      r2 ∈ rows ∧ ∃ d, safe_date r2.deadline = some d ∧ d ≤ today + 7) ∧
    r ∉ process_nl today q rows ∧
    r ∉ process_nl today q2 rows ∧
    inRangeB start_date end_date r = true := by
  have hq : process_nl today q rows = rows.filter (fun r =>
      match safe_date r.deadline with
      | some d => decide (d ≤ today + 7)
      | none => false) := by
    simp [process_nl, hne, hov, hdw]
  have hq2 : process_nl today q2 rows = rows.filter (fun r =>
      match safe_date r.deadline with
      | some d => decide (d < today)
      | none => false) := by
    simp [process_nl, hne2, hov2]
  refine ⟨?_, ?_, ?_, by simp [inRangeB, hnone]⟩
  · intro r2
    rw [hq, List.mem_filter, due_week_pred_iff]
  · rw [hq]
    simp only [List.mem_filter]
    rintro ⟨-, h2⟩
    rw [due_week_pred_iff] at h2
    obtain ⟨d, hd, -⟩ := h2
    rw [hnone] at hd
    cases hd
  · rw [hq2]
    simp only [List.mem_filter]
    rintro ⟨-, h2⟩
    rw [overdue_shortcut_pred_iff] at h2
    obtain ⟨d, hd, -⟩ := h2
    rw [hnone] at hd
    cases hd

/-- C10 witness: the amended facts at a concrete snapshot, with the plain
query "due this week", the query "show overdue", and the
unparseable-deadline tender. -/
theorem due_this_week_amended_witness :
    (∀ r2, r2 ∈ process_nl d20250810 "due this week" [tenderA, tenderN] ↔
      r2 ∈ [tenderA, tenderN] ∧
        ∃ d, safe_date r2.deadline = some d ∧ d ≤ d20250810 + 7) ∧
    tenderN ∉ process_nl d20250810 "due this week" [tenderA, tenderN] ∧
    tenderN ∉ process_nl d20250810 "show overdue" [tenderA, tenderN] ∧
    inRangeB (d20250810 - 14) (d20250810 + 60) tenderN = true :=
  due_this_week_amended d20250810 (d20250810 - 14) (d20250810 + 60)
    "due this week" "show overdue" [tenderA, tenderN] tenderN
    (by decide) (by decide) (by decide) (by decide) (by decide) (by decide)

/-- C7 witness: the unparseable-deadline facts at the concrete tender with
deadline `"not-a-date"`. -/
theorem unparseable_deadline_witness :
    tenderN ∉ compute_overdue d20250810 [tenderA, tenderN] ∧
    tenderN ∉ dueN d20250810 7 [tenderA, tenderN] ∧
    inRangeB (d20250810 - 14) (d20250810 + 60) tenderN = true ∧
    compute_total [tenderA, tenderN] = [tenderA, tenderN].length ∧
    safe_date (some "not-a-date") = none :=
  unparseable_deadline_spec d20250810 7 (d20250810 - 14) (d20250810 + 60)
    [tenderA, tenderN] tenderN (by decide)

end TFML
